import Mathlib

/-!
Verification of the Genesis Protocol atomic-transaction core.

The development shallowly embeds the two ledger implementations found in
`src/src/core/protocols/genesis.protocol.ts`:

* `CSIL` — the in-memory `CentralizedSuperIDLedger` class (JS `Map`s are
  modelled as association lists; JS numbers holding money amounts are
  modelled as `Int`; ISO timestamps as `Nat` milliseconds; the opaque
  sha256 digest is threaded as a function parameter `hashFn`).  The
  per-phase `syncWithFederatedServers` call can reject (its `catch`
  rethrows "Federated server sync failed"), so each phase takes a boolean
  recording whether that federation sync succeeds.

* `GP` — the NestJS `GenesisProtocol` service together with its Redis
  cache and TypeORM tables.  Redis keyspaces (`pending_lock:`, `lock:`,
  `balance:`, `conflict:`) are modelled as typed maps whose values carry
  their absolute expiry time in milliseconds; `redisGet` returns an entry
  only while it is live.  Database exceptions are out of scope: the happy
  path of each query runner is modelled.  Floating-point energy metrics
  and log output are observability only and are omitted.
-/

deriving instance DecidableEq for Except

/-- First-match lookup in an association list, the read half of a JS `Map`. -/
def mapGet {κ α : Type} [DecidableEq κ] (m : List (κ × α)) (k : κ) : Option α :=
  match m with
  | [] => none
  | (k1, v) :: t => if k = k1 then some v else mapGet t k

/-- JS `Map.set`: replace the entry for the key if present, else append. -/
def mapSet {κ α : Type} [DecidableEq κ] (m : List (κ × α)) (k : κ) (v : α) :
    List (κ × α) :=
  match m with
  | [] => [(k, v)]
  | (k1, v1) :: t => if k = k1 then (k, v) :: t else (k1, v1) :: mapSet t k v

/-- JS `Map.delete`: drop the entry for the key when present. -/
def mapDelete {κ α : Type} [DecidableEq κ] (m : List (κ × α)) (k : κ) :
    List (κ × α) :=
  match m with
  | [] => []
  | (k1, v1) :: t => if k = k1 then t else (k1, v1) :: mapDelete t k

/-- Redis read: an entry is visible only before its absolute expiry time. -/
def redisGet {κ α : Type} [DecidableEq κ] (m : List (κ × (α × Nat))) (k : κ)
    (now : Nat) : Option α :=
  match mapGet m k with
  | none => none
  | some (v, expiry) => if now < expiry then some v else none

theorem mapGet_mapSet_self {κ α : Type} [DecidableEq κ]
    (m : List (κ × α)) (k : κ) (v : α) : mapGet (mapSet m k v) k = some v := by
  induction m with
  | nil => simp [mapGet, mapSet]
  | cons h t ih =>
    by_cases hk : k = h.1
    · simp [mapGet, mapSet, hk]
    · simpa [mapGet, mapSet, hk] using ih

theorem mapGet_mapSet_ne {κ α : Type} [DecidableEq κ]
    (m : List (κ × α)) (k k2 : κ) (v : α) (hne : k2 ≠ k) :
    mapGet (mapSet m k v) k2 = mapGet m k2 := by
  induction m with
  | nil => simp [mapGet, mapSet, hne]
  | cons h t ih =>
    by_cases hk : k = h.1
    · subst hk
      simp [mapGet, mapSet, hne]
    · by_cases hk2 : k2 = h.1
      · simp [mapGet, mapSet, hk, hk2]
      · simpa [mapGet, mapSet, hk, hk2] using ih

theorem mapSet_mapSet_self {κ α : Type} [DecidableEq κ]
    (m : List (κ × α)) (k : κ) (v w : α) :
    mapSet (mapSet m k v) k w = mapSet m k w := by
  induction m with
  | nil => simp [mapSet]
  | cons h t ih =>
    by_cases hk : k = h.1
    · simp [mapSet, hk]
    · simp [mapSet, hk, ih]

theorem mapDelete_mapSet_of_notMem {κ α : Type} [DecidableEq κ]
    (m : List (κ × α)) (k : κ) (v : α) (h : mapGet m k = none) :
    mapDelete (mapSet m k v) k = m := by
  induction m with
  | nil => simp [mapSet, mapDelete]
  | cons hd t ih =>
    by_cases hk : k = hd.1
    · simp [mapGet, hk] at h
    · simp only [mapGet, if_neg hk] at h
      simp [mapSet, mapDelete, hk, ih h]

theorem mapGet_mapDelete_of_none {κ α : Type} [DecidableEq κ]
    (m : List (κ × α)) (k : κ) (h : mapGet m k = none) :
    mapDelete m k = m := by
  induction m with
  | nil => simp [mapDelete]
  | cons hd t ih =>
    by_cases hk : k = hd.1
    · simp [mapGet, hk] at h
    · simp only [mapGet, if_neg hk] at h
      simp [mapDelete, hk, ih h]

namespace CSIL

/-- Biometric data triple passed to `generateBiometricHash`. -/
structure BiometricData where
  fingerprint : String
  iris : String
  facial : String
deriving DecidableEq, Repr

/-- Account record created by `initializeSuperID`. -/
structure Account where
  superID : String
  balance : Int
  isLocked : Bool
  lockedAmount : Int
  createdAt : Nat
  lastActivity : Nat
  transactionCount : Int
  biometricHash : String
deriving DecidableEq, Repr

/-- Status of an entry of `pendingTransactions` (set to LOCKED by
`atomicBalanceLock`, upgraded to CREDITED by `simultaneousCredit`). -/
inductive PendingStatus where
  | LOCKED
  | CREDITED
deriving DecidableEq, Repr

/-- Entry of the `pendingTransactions` map. -/
structure PendingTx where
  fromSuperID : String
  amount : Int
  status : PendingStatus
  toSuperID : Option String
  timestamp : Nat
deriving DecidableEq, Repr

/-- Completed-transaction record appended to `transactionHistory`. -/
structure TxRecord where
  transactionID : String
  fromSuperID : String
  toSuperID : String
  amount : Int
  timestamp : Nat
  status : String
deriving DecidableEq, Repr

/-- State of the `CentralizedSuperIDLedger` instance. -/
structure LedgerState where
  accounts : List (String × Account)
  pendingTransactions : List (String × PendingTx)
  transactionHistory : List (String × List TxRecord)
  biometricRegistry : List (String × String)
deriving DecidableEq, Repr

/-- Digest of `fingerprint:iris:facial`; `hashFn` stands for sha256. -/
def generateBiometricHash (hashFn : String → String) (bd : BiometricData) :
    String :=
  hashFn (bd.fingerprint ++ ":" ++ bd.iris ++ ":" ++ bd.facial)

/-- Create a Super ID account; rejects a biometric hash that is already in
the registry before touching any map. -/
def initializeSuperID (hashFn : String → String) (s : LedgerState)
    (superID : String) (bd : BiometricData) (initialBalance : Int)
    (now : Nat) : LedgerState × Except String Account :=
  let biometricHash := generateBiometricHash hashFn bd
  if (mapGet s.biometricRegistry biometricHash).isSome then
    (s, .error "Biometric data already registered - 1:1 mapping violation")
  else
    let account : Account :=
      { superID := superID, balance := initialBalance, isLocked := false,
        lockedAmount := 0, createdAt := now, lastActivity := now,
        transactionCount := 0, biometricHash := biometricHash }
    ({ s with
        accounts := mapSet s.accounts superID account,
        biometricRegistry := mapSet s.biometricRegistry biometricHash superID,
        transactionHistory := mapSet s.transactionHistory superID [] },
     .ok account)

/-- Phase 1 of `executeAtomicTransaction`: pure prerequisite checks, in
source order (sender exists, not locked, balance, biometric, recipient,
positive amount). -/
def validateTransaction (hashFn : String → String) (s : LedgerState)
    (fromID toID : String) (amount : Int) (auth : BiometricData) :
    Except String Unit :=
  match mapGet s.accounts fromID with
  | none => .error "Sender Super ID not found"
  | some senderAccount =>
    if senderAccount.isLocked then
      .error "Sender account locked - transaction in progress"
    else
      let availableBalance := senderAccount.balance - senderAccount.lockedAmount
      if availableBalance < amount then
        .error "Insufficient balance - double-spend mathematically impossible"
      else if generateBiometricHash hashFn auth ≠ senderAccount.biometricHash then
        .error "Biometric authentication failed"
      else
        match mapGet s.accounts toID with
        | none => .error "Recipient Super ID not found"
        | some _ =>
          if amount ≤ 0 then .error "Transaction amount must be positive"
          else .ok ()

/-- Phase 2: raise the sender's `lockedAmount`, set `isLocked`, record the
pending transaction, then sync with the federated servers (mutations stay
applied when the sync rejects, matching the thrown-after-mutation order). -/
def atomicBalanceLock (s : LedgerState) (fromID : String) (amount : Int)
    (transactionID : String) (now : Nat) (syncOk : Bool) :
    LedgerState × Except String Unit :=
  match mapGet s.accounts fromID with
  | none => (s, .error "TypeError: account undefined")
  | some account =>
    let locked : Account :=
      { account with isLocked := true,
                     lockedAmount := account.lockedAmount + amount,
                     lastActivity := now }
    let pendingTx : PendingTx :=
      { fromSuperID := fromID, amount := amount, status := .LOCKED,
        toSuperID := none, timestamp := now }
    let s1 := { s with accounts := mapSet s.accounts fromID locked }
    let s2 := { s1 with pendingTransactions := mapSet s1.pendingTransactions transactionID pendingTx }
    if syncOk then (s2, .ok ())
    else (s2, .error "Federated server sync failed - transaction aborted")

/-- Phase 3: optimistic recipient credit; marks the pending transaction
CREDITED and records `toSuperID`, then syncs. -/
def simultaneousCredit (s : LedgerState) (toID : String) (amount : Int)
    (transactionID : String) (now : Nat) (syncOk : Bool) :
    LedgerState × Except String Unit :=
  match mapGet s.accounts toID with
  | none => (s, .error "TypeError: account undefined")
  | some recipientAccount =>
    let credited : Account :=
      { recipientAccount with
          balance := recipientAccount.balance + amount,
          lastActivity := now,
          transactionCount := recipientAccount.transactionCount + 1 }
    let s1 := { s with accounts := mapSet s.accounts toID credited }
    match mapGet s1.pendingTransactions transactionID with
    | none => (s1, .error "TypeError: pending transaction undefined")
    | some pendingTx =>
      let creditedTx : PendingTx :=
        { pendingTx with toSuperID := some toID, status := .CREDITED }
      let s2 := { s1 with pendingTransactions := mapSet s1.pendingTransactions transactionID creditedTx }
      if syncOk then (s2, .ok ())
      else (s2, .error "Federated server sync failed - transaction aborted")

/-- Phase 4: settle the sender, append the COMPLETED record to both
histories, drop the pending entry, and only then run the final sync. -/
def completeTransaction (s : LedgerState) (fromID toID : String)
    (amount : Int) (transactionID : String) (now : Nat) (syncOk : Bool) :
    LedgerState × Except String Unit :=
  match mapGet s.accounts fromID with
  | none => (s, .error "TypeError: account undefined")
  | some senderAccount =>
    let settled : Account :=
      { senderAccount with
          balance := senderAccount.balance - amount,
          lockedAmount := senderAccount.lockedAmount - amount,
          isLocked := false,
          transactionCount := senderAccount.transactionCount + 1 }
    let s1 := { s with accounts := mapSet s.accounts fromID settled }
    let record : TxRecord :=
      { transactionID := transactionID, fromSuperID := fromID,
        toSuperID := toID, amount := amount, timestamp := now,
        status := "COMPLETED" }
    match mapGet s1.transactionHistory fromID with
    | none => (s1, .error "TypeError: history undefined")
    | some fromHistory =>
      let s2 := { s1 with transactionHistory := mapSet s1.transactionHistory fromID (fromHistory ++ [record]) }
      match mapGet s2.transactionHistory toID with
      | none => (s2, .error "TypeError: history undefined")
      | some toHistory =>
        let s3 := { s2 with transactionHistory := mapSet s2.transactionHistory toID (toHistory ++ [record]) }
        let s4 := { s3 with pendingTransactions := mapDelete s3.pendingTransactions transactionID }
        if syncOk then (s4, .ok ())
        else (s4, .error "Federated server sync failed - transaction aborted")

/-- Compensation path: undo the sender lock, undo the credit when the
pending record reached CREDITED, and drop the pending entry.  A missing
pending record makes the whole call a no-op. -/
def rollbackTransaction (s : LedgerState) (transactionID : String) :
    LedgerState :=
  match mapGet s.pendingTransactions transactionID with
  | none => s
  | some pendingTx =>
    let s1 :=
      match mapGet s.accounts pendingTx.fromSuperID with
      | none => s
      | some senderAccount =>
        let unlocked : Account :=
          { senderAccount with
              lockedAmount := senderAccount.lockedAmount - pendingTx.amount,
              isLocked := false }
        { s with accounts := mapSet s.accounts pendingTx.fromSuperID unlocked }
    let s2 :=
      match pendingTx.toSuperID, pendingTx.status with
      | some toID, .CREDITED =>
        match mapGet s1.accounts toID with
        | none => s1
        | some recipientAccount =>
          let uncredited : Account :=
            { recipientAccount with
                balance := recipientAccount.balance - pendingTx.amount,
                transactionCount := recipientAccount.transactionCount - 1 }
          { s1 with accounts := mapSet s1.accounts toID uncredited }
      | _, _ => s1
    { s2 with pendingTransactions := mapDelete s2.pendingTransactions transactionID }

/-- The full four-phase ATP driver; every failure funnels through
`rollbackTransaction` before the error is surfaced.  The three booleans
record the outcomes of the three federation syncs, in call order. -/
def executeAtomicTransaction (hashFn : String → String) (s : LedgerState)
    (fromID toID : String) (amount : Int) (auth : BiometricData)
    (transactionID : String) (now : Nat) (sync1 sync2 sync3 : Bool) :
    LedgerState × Except String String :=
  match validateTransaction hashFn s fromID toID amount auth with
  | .error e => (rollbackTransaction s transactionID, .error e)
  | .ok _ =>
    let r1 := atomicBalanceLock s fromID amount transactionID now sync1
    match r1.2 with
    | .error e => (rollbackTransaction r1.1 transactionID, .error e)
    | .ok _ =>
      let r2 := simultaneousCredit r1.1 toID amount transactionID now sync2
      match r2.2 with
      | .error e => (rollbackTransaction r2.1 transactionID, .error e)
      | .ok _ =>
        let r3 := completeTransaction r2.1 fromID toID amount transactionID now sync3
        match r3.2 with
        | .error e => (rollbackTransaction r3.1 transactionID, .error e)
        | .ok _ => (r3.1, .ok transactionID)

/-- Balance getter; an unknown Super ID yields `0`, not an error. -/
def getBalance (s : LedgerState) (superID : String) : Int :=
  match mapGet s.accounts superID with
  | some account => account.balance
  | none => 0

/-- Sum of all account balances held by the ledger. -/
def balanceSum (m : List (String × Account)) : Int :=
  (m.map (fun p => p.2.balance)).sum

end CSIL

namespace GP

/-- Fields of `TransactionData` read by `preventDoubleSpending`
(`networkId`, `receiver`, `timestamp`, `metadata`, `signature` and `nonce`
are not consulted by it). -/
structure TransactionData where
  id : String
  sender : String
  amount : Int
  currency : String
deriving DecidableEq, Repr

/-- Status column of the `transaction_lock` table. -/
inductive LockStatus where
  | PENDING
  | COMPLETED
  | EXPIRED
  | FAILED
deriving DecidableEq, Repr

/-- Row of the `transaction_lock` table. -/
structure DbLock where
  superIdHash : String
  amount : Int
  currency : String
  transactionId : String
  status : LockStatus
  createdAt : Nat
  expiresAt : Nat
  completedAt : Option Nat
deriving DecidableEq, Repr

/-- Row of the `super_id_ledger` table (keyed by hash and currency). -/
structure LedgerEntry where
  availableBalance : Int
  lockedBalance : Int
  totalBalance : Int
  lastUpdated : Nat
deriving DecidableEq, Repr

/-- Balance snapshot assembled by `getSuperIDBalance` (and cached). -/
structure SuperIDBalance where
  superIdHash : String
  availableBalance : Int
  lockedBalance : Int
  currency : String
  lastUpdated : Nat
deriving DecidableEq, Repr

/-- State of the `GenesisProtocol` service: the three database tables plus
the four Redis keyspaces it uses, each Redis value paired with its
absolute expiry time in milliseconds. -/
structure GPState where
  superIdLedger : List ((String × String) × LedgerEntry)
  transactionLocks : List (String × DbLock)
  biometricRecords : List (String × Bool)
  pendingLockKeys : List (String × (String × Nat))
  lockKeys : List (String × (String × Nat))
  balanceCacheKeys : List ((String × String) × (SuperIDBalance × Nat))
  conflictKeys : List ((String × String) × (String × Nat))
deriving DecidableEq, Repr

/-- The constant `LOCK_TIMEOUT_MS = 500`. -/
def LOCK_TIMEOUT_MS : Nat := 500

/-- Digest of `superid_` + sender; `idHash` stands for sha256. -/
def generateSuperIDHash (idHash : String → String) (senderAddress : String) :
    String :=
  idHash ("superid_" ++ senderAddress)

/-- `findOne` on the biometric table with `isActive: true`. -/
def verifyBiometricBinding (s : GPState) (superIdHash : String) : Bool :=
  s.biometricRecords.any (fun p => decide (p.1 = superIdHash) && p.2)

/-- Pending-lock probe: the Redis `pending_lock` key while it is live,
otherwise the database query on status PENDING whose `expiresAt` filter is
written as `expiresAt: new Date()` — an equality comparison against the
current instant (the adjacent comment reads "Greater than current time"). -/
def checkExistingTransactionLock (s : GPState) (superIdHash : String)
    (now : Nat) : Bool :=
  if (redisGet s.pendingLockKeys superIdHash now).isSome then true
  else
    s.transactionLocks.any (fun p =>
      decide (p.2.superIdHash = superIdHash ∧ p.2.status = LockStatus.PENDING
        ∧ p.2.expiresAt = now))

/-- Balance read: serve the 1-second Redis cache when live, otherwise read
the table (defaulting every field of a missing row to zero) and cache the
result for one second. -/
def getSuperIDBalance (s : GPState) (superIdHash currency : String)
    (now : Nat) : SuperIDBalance × GPState :=
  match redisGet s.balanceCacheKeys (superIdHash, currency) now with
  | some cached => (cached, s)
  | none =>
    let entry := mapGet s.superIdLedger (superIdHash, currency)
    let balance : SuperIDBalance :=
      { superIdHash := superIdHash,
        availableBalance := (entry.map (fun e => e.availableBalance)).getD 0,
        lockedBalance := (entry.map (fun e => e.lockedBalance)).getD 0,
        currency := currency,
        lastUpdated := (entry.map (fun e => e.lastUpdated)).getD now }
    (balance,
     { s with balanceCacheKeys :=
        mapSet s.balanceCacheKeys (superIdHash, currency) (balance, now + 1000) })

/-- Insert a fresh PENDING lock row (the caller supplies the generated
`lock_` id) and cache `lock:` and `pending_lock:` keys for
`ceil(LOCK_TIMEOUT_MS / 1000) = 1` second.  No lookup by `transactionId`
is performed.  Database failures are out of scope, so the call succeeds. -/
def createAtomicTransactionLock (s : GPState) (superIdHash : String)
    (amount : Int) (currency transactionId lockId : String) (now : Nat) :
    GPState × String :=
  let lock : DbLock :=
    { superIdHash := superIdHash, amount := amount, currency := currency,
      transactionId := transactionId, status := .PENDING, createdAt := now,
      expiresAt := now + LOCK_TIMEOUT_MS, completedAt := none }
  ({ s with
      transactionLocks := mapSet s.transactionLocks lockId lock,
      lockKeys := mapSet s.lockKeys lockId (transactionId, now + 1000),
      pendingLockKeys := mapSet s.pendingLockKeys superIdHash (lockId, now + 1000) },
   lockId)

/-- Move `amount` from available to locked, creating an all-zero row first
when the account has no ledger entry, then invalidate the balance cache. -/
def updateBalanceWithLock (s : GPState) (superIdHash : String) (amount : Int)
    (currency : String) (now : Nat) : GPState :=
  let entry : LedgerEntry :=
    match mapGet s.superIdLedger (superIdHash, currency) with
    | some e => e
    | none =>
      { availableBalance := 0, lockedBalance := 0, totalBalance := 0,
        lastUpdated := now }
  let updated : LedgerEntry :=
    { entry with
        availableBalance := entry.availableBalance - amount,
        lockedBalance := entry.lockedBalance + amount,
        lastUpdated := now }
  { s with
      superIdLedger := mapSet s.superIdLedger (superIdHash, currency) updated,
      balanceCacheKeys := mapDelete s.balanceCacheKeys (superIdHash, currency) }

/-- CRDT step: any live `conflict:` key for the sender is a conflict;
otherwise the transaction marks its own key for one second and passes. -/
def validateWithCRDTs (s : GPState) (sender transactionId lockId : String)
    (now : Nat) : GPState × Bool :=
  if s.conflictKeys.any (fun p => decide (p.1.1 = sender) && decide (now < p.2.2))
  then (s, false)
  else
    ({ s with conflictKeys :=
        mapSet s.conflictKeys (sender, transactionId) (lockId, now + 1000) },
     true)

/-- Mark the lock FAILED (no status precondition) and re-add its amount to
the available balance via the raw UPDATE, then clear the Redis keys.  An
unknown `lockId` only clears the `lock:` key. -/
def rollbackAtomicLock (s : GPState) (lockId : String) (now : Nat) : GPState :=
  match mapGet s.transactionLocks lockId with
  | none => { s with lockKeys := mapDelete s.lockKeys lockId }
  | some lock =>
    let failed : DbLock := { lock with status := .FAILED, completedAt := some now }
    let s1 := { s with transactionLocks := mapSet s.transactionLocks lockId failed }
    let s2 :=
      match mapGet s1.superIdLedger (lock.superIdHash, lock.currency) with
      | none => s1
      | some entry =>
        let restored : LedgerEntry :=
          { entry with
              availableBalance := entry.availableBalance + lock.amount,
              lockedBalance := entry.lockedBalance - lock.amount,
              lastUpdated := now }
        { s1 with superIdLedger :=
            mapSet s1.superIdLedger (lock.superIdHash, lock.currency) restored }
    { s2 with
        lockKeys := mapDelete s2.lockKeys lockId,
        pendingLockKeys := mapDelete s2.pendingLockKeys lock.superIdHash }

/-- Mark the lock COMPLETED (again with no status precondition; a missing
row makes the UPDATE affect nothing) and clear the `lock:` key.  Balances
are deliberately untouched. -/
def completeAtomicTransaction (s : GPState) (lockId : String) (now : Nat) :
    GPState × Bool :=
  let s1 :=
    match mapGet s.transactionLocks lockId with
    | none => s
    | some lock =>
      let completed : DbLock :=
        { lock with status := .COMPLETED, completedAt := some now }
      { s with transactionLocks := mapSet s.transactionLocks lockId completed }
  ({ s1 with lockKeys := mapDelete s1.lockKeys lockId }, true)

/-- Outcome record of `preventDoubleSpending` (processing time and energy
fields omitted). -/
structure DoubleSpendCheckResult where
  valid : Bool
  reason : Option String
  lockId : Option String
  errors : List String
deriving DecidableEq, Repr

/-- The eight-step `preventDoubleSpending` pipeline.  `idHash` models the
sha256 of the Super ID derivation and `freshLockId` the generated
`lock_{Date.now()}_{random}` identifier.  Note the absence of any
`amount > 0` or currency validation. -/
def preventDoubleSpending (idHash : String → String) (s : GPState)
    (tx : TransactionData) (freshLockId : String) (now : Nat) :
    GPState × DoubleSpendCheckResult :=
  let superIdHash := generateSuperIDHash idHash tx.sender
  if !(verifyBiometricBinding s superIdHash) then
    (s, { valid := false,
          reason := some "Biometric verification failed - Invalid Super ID binding",
          lockId := none, errors := ["BIOMETRIC_VERIFICATION_FAILED"] })
  else if checkExistingTransactionLock s superIdHash now then
    (s, { valid := false,
          reason := some "Another transaction is already pending for this Super ID",
          lockId := none, errors := ["SEQUENTIAL_TRANSACTION_VIOLATION"] })
  else
    let read := getSuperIDBalance s superIdHash tx.currency now
    if read.1.availableBalance < tx.amount then
      (read.2, { valid := false, reason := some "Insufficient balance",
                 lockId := none, errors := ["INSUFFICIENT_BALANCE"] })
    else
      let lockStep :=
        createAtomicTransactionLock read.2 superIdHash tx.amount tx.currency
          tx.id freshLockId now
      let s3 := updateBalanceWithLock lockStep.1 superIdHash tx.amount tx.currency now
      let crdt := validateWithCRDTs s3 tx.sender tx.id freshLockId now
      if !crdt.2 then
        (rollbackAtomicLock crdt.1 freshLockId now,
         { valid := false,
           reason := some "CRDT validation failed - Potential conflict detected",
           lockId := none, errors := ["CRDT_VALIDATION_FAILED"] })
      else
        (crdt.1, { valid := true, reason := none,
                   lockId := some freshLockId, errors := [] })

end GP

/-- Claim C2: a debit fails with the insufficient-funds error exactly when
the available balance is strictly below the requested amount, in both the
`CentralizedSuperIDLedger.validateTransaction` check and the
`GenesisProtocol.preventDoubleSpending` balance step; an amount equal to
the available balance passes the boundary. -/
theorem C2_insufficient_funds_iff :
    (∀ (hashFn : String → String) (s : CSIL.LedgerState) (fromID toID : String)
        (amount : Int) (auth : CSIL.BiometricData) (acct : CSIL.Account),
      mapGet s.accounts fromID = some acct → acct.isLocked = false →
      (CSIL.validateTransaction hashFn s fromID toID amount auth =
          .error "Insufficient balance - double-spend mathematically impossible" ↔
        acct.balance - acct.lockedAmount < amount)) ∧
    (∀ (idHash : String → String) (s : GP.GPState) (tx : GP.TransactionData)
        (freshLockId : String) (now : Nat),
      GP.verifyBiometricBinding s (GP.generateSuperIDHash idHash tx.sender) = true →
      GP.checkExistingTransactionLock s (GP.generateSuperIDHash idHash tx.sender) now
          = false →
      ((GP.preventDoubleSpending idHash s tx freshLockId now).2.errors =
          ["INSUFFICIENT_BALANCE"] ↔
        (GP.getSuperIDBalance s (GP.generateSuperIDHash idHash tx.sender)
            tx.currency now).1.availableBalance < tx.amount)) := by
  constructor
  · intro hashFn s fromID toID amount auth acct hget hlock
    unfold CSIL.validateTransaction
    rw [hget]
    simp only [hlock, Bool.false_eq_true, if_false]
    by_cases hbal : acct.balance - acct.lockedAmount < amount
    · simp [hbal]
    · simp only [hbal, if_false, iff_false]
      by_cases hbio : CSIL.generateBiometricHash hashFn auth ≠ acct.biometricHash
      · simp [hbio]
      · simp only [hbio, if_false]
        cases hto : mapGet s.accounts toID with
        | none => simp
        | some a => by_cases hamt : amount ≤ 0 <;> simp [hamt]
  · intro idHash s tx freshLockId now hbio hpend
    unfold GP.preventDoubleSpending
    simp only [hbio, hpend, Bool.not_true, Bool.false_eq_true, if_false]
    by_cases hbal :
        (GP.getSuperIDBalance s (GP.generateSuperIDHash idHash tx.sender)
          tx.currency now).1.availableBalance < tx.amount
    · simp [hbal]
    · simp only [hbal, if_false, iff_false]
      by_cases hcrdt :
          (GP.validateWithCRDTs
            (GP.updateBalanceWithLock
              (GP.createAtomicTransactionLock
                (GP.getSuperIDBalance s (GP.generateSuperIDHash idHash tx.sender)
                  tx.currency now).2
                (GP.generateSuperIDHash idHash tx.sender) tx.amount tx.currency
                tx.id freshLockId now).1
              (GP.generateSuperIDHash idHash tx.sender) tx.amount tx.currency now)
            tx.sender tx.id freshLockId now).2 = true
      · simp [hcrdt]
      · simp [hcrdt]

/-- Concrete biometric triple used by the concrete-instance theorems. -/
def sampleAuth : CSIL.BiometricData :=
  { fingerprint := "f", iris := "i", facial := "c" }

/-- Concrete sender account (its biometric hash matches `sampleAuth` under
the identity digest). -/
def sampleAccountA : CSIL.Account :=
  { superID := "A", balance := 100, isLocked := false, lockedAmount := 0,
    createdAt := 0, lastActivity := 0, transactionCount := 0,
    biometricHash := "f:i:c" }

/-- Concrete recipient account. -/
def sampleAccountB : CSIL.Account :=
  { superID := "B", balance := 50, isLocked := false, lockedAmount := 0,
    createdAt := 0, lastActivity := 0, transactionCount := 0,
    biometricHash := "g:j:d" }

/-- Concrete two-account CSIL ledger. -/
def sampleLedger : CSIL.LedgerState :=
  { accounts := [("A", sampleAccountA), ("B", sampleAccountB)],
    pendingTransactions := [],
    transactionHistory := [("A", []), ("B", [])],
    biometricRegistry := [("f:i:c", "A"), ("g:j:d", "B")] }

/-- Concrete GenesisProtocol state: one funded ledger row, an active
biometric binding, no locks and an empty Redis. -/
def gpSample : GP.GPState :=
  { superIdLedger :=
      [(("H", "USD"),
        { availableBalance := 100, lockedBalance := 0, totalBalance := 100,
          lastUpdated := 0 })],
    transactionLocks := [], biometricRecords := [("H", true)],
    pendingLockKeys := [], lockKeys := [], balanceCacheKeys := [],
    conflictKeys := [] }

/-- Concrete transaction asking for exactly the available balance. -/
def gpTxBoundary : GP.TransactionData :=
  { id := "T1", sender := "S", amount := 100, currency := "USD" }

/-- Witness for C2 at the inclusive boundary: with 100 available, a debit
of exactly 100 is not rejected as insufficient in either implementation. -/
theorem C2_insufficient_funds_iff_witness :
    ((CSIL.validateTransaction (fun x => x) sampleLedger "A" "B" 100 sampleAuth =
        .error "Insufficient balance - double-spend mathematically impossible" ↔
      sampleAccountA.balance - sampleAccountA.lockedAmount < 100)) ∧
    (((GP.preventDoubleSpending (fun _ => "H") gpSample gpTxBoundary "L1" 0).2.errors =
        ["INSUFFICIENT_BALANCE"]) ↔
      (GP.getSuperIDBalance gpSample
          (GP.generateSuperIDHash (fun _ => "H") gpTxBoundary.sender)
          gpTxBoundary.currency 0).1.availableBalance < gpTxBoundary.amount) := by
  constructor
  · exact C2_insufficient_funds_iff.1 (fun x => x) sampleLedger "A" "B" 100
      sampleAuth sampleAccountA (by decide) (by decide)
  · exact C2_insufficient_funds_iff.2 (fun _ => "H") gpSample gpTxBoundary "L1" 0
      (by decide) (by decide)

/-- Claim C7 counterexample: the Super ID `Z` is not registered in the
concrete ledger, yet `getBalance` returns the default balance `0` instead
of failing with a not-found error (`return account ? account.balance : 0`). -/
theorem C7_counterexample :
    mapGet sampleLedger.accounts "Z" = none ∧
    CSIL.getBalance sampleLedger "Z" = 0 := by
  decide

/-- Claim C7 as amended: for an unregistered account, `getBalance` returns
the default `0`, and `getSuperIDBalance` (on a cache and database miss)
returns an all-zero balance snapshot; neither fails. -/
theorem C7_amended_default_zero :
    (∀ (s : CSIL.LedgerState) (superID : String),
      mapGet s.accounts superID = none → CSIL.getBalance s superID = 0) ∧
    (∀ (s : GP.GPState) (h c : String) (now : Nat),
      redisGet s.balanceCacheKeys (h, c) now = none →
      mapGet s.superIdLedger (h, c) = none →
      (GP.getSuperIDBalance s h c now).1.availableBalance = 0 ∧
      (GP.getSuperIDBalance s h c now).1.lockedBalance = 0) := by
  constructor
  · intro s superID hnone
    unfold CSIL.getBalance
    rw [hnone]
  · intro s h c now hcache hdb
    unfold GP.getSuperIDBalance
    rw [hcache, hdb]
    exact ⟨rfl, rfl⟩

/-- Witness for the amended C7 at a concrete unregistered id. -/
theorem C7_amended_default_zero_witness :
    CSIL.getBalance sampleLedger "Z" = 0 ∧
    ((GP.getSuperIDBalance gpSample "Z" "USD" 0).1.availableBalance = 0 ∧
     (GP.getSuperIDBalance gpSample "Z" "USD" 0).1.lockedBalance = 0) := by
  constructor
  · exact C7_amended_default_zero.1 sampleLedger "Z" (by decide)
  · exact C7_amended_default_zero.2 gpSample "Z" "USD" 0 (by decide) (by decide)

/-- Claim C10: `initializeSuperID` on biometric data whose hash is already
in the biometric registry throws the 1:1-mapping error and leaves the
entire ledger state (accounts, registry, histories, pending set)
unchanged. -/
theorem C10_duplicate_biometric_rejected :
    ∀ (hashFn : String → String) (s : CSIL.LedgerState) (superID : String)
      (bd : CSIL.BiometricData) (initialBalance : Int) (now : Nat),
      (mapGet s.biometricRegistry (CSIL.generateBiometricHash hashFn bd)).isSome
          = true →
      (CSIL.initializeSuperID hashFn s superID bd initialBalance now).1 = s ∧
      (CSIL.initializeSuperID hashFn s superID bd initialBalance now).2 =
        .error "Biometric data already registered - 1:1 mapping violation" := by
  intro hashFn s superID bd initialBalance now hdup
  unfold CSIL.initializeSuperID
  simp [hdup]

/-- Witness for C10: re-registering `sampleAuth` (already bound to account
`A`) under a fresh Super ID is rejected without touching the ledger. -/
theorem C10_duplicate_biometric_rejected_witness :
    (CSIL.initializeSuperID (fun x => x) sampleLedger "C" sampleAuth 77 5).1 =
        sampleLedger ∧
    (CSIL.initializeSuperID (fun x => x) sampleLedger "C" sampleAuth 77 5).2 =
      .error "Biometric data already registered - 1:1 mapping violation" :=
  C10_duplicate_biometric_rejected (fun x => x) sampleLedger "C" sampleAuth 77 5
    (by decide)

/-- GenesisProtocol state holding a still-PENDING lock for hash `H` whose
`expiresAt` (500) and Redis `pending_lock` key (expiry 1000) both lie in
the past of the probe time 2000. -/
def gpStaleLock : GP.GPState :=
  { superIdLedger :=
      [(("H", "USD"),
        { availableBalance := 100, lockedBalance := 50, totalBalance := 150,
          lastUpdated := 0 })],
    transactionLocks :=
      [("L1",
        { superIdHash := "H", amount := 50, currency := "USD",
          transactionId := "T1", status := .PENDING, createdAt := 0,
          expiresAt := 500, completedAt := none })],
    biometricRecords := [("H", true)],
    pendingLockKeys := [("H", ("L1", 1000))],
    lockKeys := [("L1", ("T1", 1000))],
    balanceCacheKeys := [], conflictKeys := [] }

/-- Second transfer for the same sender while `L1` is still PENDING. -/
def gpTxSecond : GP.TransactionData :=
  { id := "T2", sender := "S", amount := 40, currency := "USD" }

/-- Claim C1 failing run: a PENDING lock for the account exists in the
lock table, yet once its 1-second Redis key has lapsed the pending-lock
check returns `false` — the database query compares `expiresAt` for
equality with the current instant although its comment asks for
greater-than — so `preventDoubleSpending` accepts the call and creates a
second PENDING lock for the same account instead of failing with
SEQUENTIAL_TRANSACTION_VIOLATION. -/
theorem C1_second_pending_lock_created :
    (mapGet gpStaleLock.transactionLocks "L1").map (fun l => l.status) =
        some GP.LockStatus.PENDING ∧
    GP.checkExistingTransactionLock gpStaleLock "H" 2000 = false ∧
    (GP.preventDoubleSpending (fun _ => "H") gpStaleLock gpTxSecond "L2" 2000).2.valid
        = true ∧
    (GP.preventDoubleSpending (fun _ => "H") gpStaleLock gpTxSecond "L2" 2000).2.errors
        = [] ∧
    (mapGet (GP.preventDoubleSpending (fun _ => "H") gpStaleLock gpTxSecond "L2"
        2000).1.transactionLocks "L1").map (fun l => l.status) =
        some GP.LockStatus.PENDING ∧
    (mapGet (GP.preventDoubleSpending (fun _ => "H") gpStaleLock gpTxSecond "L2"
        2000).1.transactionLocks "L2").map (fun l => l.status) =
        some GP.LockStatus.PENDING := by
  decide

/-- Transaction with a negative amount, for the C4 failing run. -/
def gpTxNegFour : GP.TransactionData :=
  { id := "T4", sender := "S", amount := -5, currency := "USD" }

/-- Claim C4 failing run: `preventDoubleSpending` accepts a debit of `-5`
(the balance test `available < amount` passes because `100 < -5` is
false) and `updateBalanceWithLock` then drives the locked balance to the
negative value `-5`, violating the non-negativity invariant. -/
theorem C4_locked_balance_goes_negative :
    (GP.preventDoubleSpending (fun _ => "H") gpSample gpTxNegFour "L4" 0).2.valid
        = true ∧
    (mapGet (GP.preventDoubleSpending (fun _ => "H") gpSample gpTxNegFour "L4"
        0).1.superIdLedger ("H", "USD")).map (fun e => e.lockedBalance) =
        some (-5) ∧
    (-5 : Int) < 0 := by
  decide

/-- Transaction with a negative amount, for the C6 failing run. -/
def gpTxNegSix : GP.TransactionData :=
  { id := "T6", sender := "S", amount := -7, currency := "USD" }

/-- Claim C6 failing run: a request with amount `-7` is not rejected by
`preventDoubleSpending` at all — no validation error is reported, a
PENDING lock is created, and the ledger row is mutated (available balance
grows from 100 to 107) — although the claim requires rejection with a
validation error before any mutation. -/
theorem C6_nonpositive_amount_not_rejected :
    (GP.preventDoubleSpending (fun _ => "H") gpSample gpTxNegSix "L6" 0).2.valid
        = true ∧
    (GP.preventDoubleSpending (fun _ => "H") gpSample gpTxNegSix "L6" 0).2.errors
        = [] ∧
    (mapGet (GP.preventDoubleSpending (fun _ => "H") gpSample gpTxNegSix "L6"
        0).1.superIdLedger ("H", "USD")).map (fun e => e.availableBalance) =
        some 107 ∧
    (mapGet (GP.preventDoubleSpending (fun _ => "H") gpSample gpTxNegSix "L6"
        0).1.transactionLocks "L6").map (fun l => l.status) =
        some GP.LockStatus.PENDING := by
  decide

/-- GenesisProtocol state with a PENDING lock for hash `K` far past its
expiry, its Redis key lapsed, and its 30 units still locked. -/
def gpExpiredLock : GP.GPState :=
  { superIdLedger :=
      [(("K", "PKR"),
        { availableBalance := 0, lockedBalance := 30, totalBalance := 30,
          lastUpdated := 0 })],
    transactionLocks :=
      [("LK",
        { superIdHash := "K", amount := 30, currency := "PKR",
          transactionId := "TK", status := .PENDING, createdAt := 0,
          expiresAt := 500, completedAt := none })],
    biometricRecords := [("K", true)],
    pendingLockKeys := [("K", ("LK", 1000))],
    lockKeys := [], balanceCacheKeys := [], conflictKeys := [] }

/-- Claim C8 failing run: a lock that is still PENDING at time 2000 though
it expired at 500 is not even noticed by the only expiry-adjacent code
path — `checkExistingTransactionLock` returns `false` because its
database filter demands `expiresAt` equal to the current instant — and no
code path marks locks EXPIRED or rolls their debit back, so the 30 locked
units stay locked. -/
theorem C8_expired_pending_lock_never_swept :
    (mapGet gpExpiredLock.transactionLocks "LK").map (fun l => l.status) =
        some GP.LockStatus.PENDING ∧
    (mapGet gpExpiredLock.transactionLocks "LK").map (fun l => l.expiresAt) =
        some 500 ∧
    (500 : Nat) < 2000 ∧
    GP.checkExistingTransactionLock gpExpiredLock "K" 2000 = false ∧
    (mapGet gpExpiredLock.superIdLedger ("K", "PKR")).map
        (fun e => e.lockedBalance) = some 30 := by
  decide

/-- GenesisProtocol state with one PENDING lock of amount 5 whose account
row holds 10 available and 5 locked. -/
def gpLockToFail : GP.GPState :=
  { superIdLedger :=
      [(("M", "USD"),
        { availableBalance := 10, lockedBalance := 5, totalBalance := 15,
          lastUpdated := 0 })],
    transactionLocks :=
      [("LM",
        { superIdHash := "M", amount := 5, currency := "USD",
          transactionId := "TM", status := .PENDING, createdAt := 0,
          expiresAt := 500, completedAt := none })],
    biometricRecords := [], pendingLockKeys := [], lockKeys := [],
    balanceCacheKeys := [], conflictKeys := [] }

/-- Claim C5 counterexample: after a first `rollbackAtomicLock` the lock
`LM` is terminal (FAILED) and the row reads 15 available / 0 locked;
calling Fail again on the terminal lock is not a no-op — it re-applies
the restoration, moving the row to 20 available / -5 locked. -/
theorem C5_counterexample :
    (mapGet (GP.rollbackAtomicLock gpLockToFail "LM" 10).transactionLocks
        "LM").map (fun l => l.status) = some GP.LockStatus.FAILED ∧
    (mapGet (GP.rollbackAtomicLock gpLockToFail "LM" 10).superIdLedger
        ("M", "USD")).map (fun e => e.availableBalance) = some 15 ∧
    (mapGet (GP.rollbackAtomicLock
        (GP.rollbackAtomicLock gpLockToFail "LM" 10) "LM" 20).superIdLedger
        ("M", "USD")).map (fun e => e.availableBalance) = some 20 ∧
    (mapGet (GP.rollbackAtomicLock
        (GP.rollbackAtomicLock gpLockToFail "LM" 10) "LM" 20).superIdLedger
        ("M", "USD")).map (fun e => e.lockedBalance) = some (-5) := by
  decide

/-- Claim C5 as amended: replaying `rollbackTransaction` on a transaction
that is no longer pending is a no-op, and `rollbackAtomicLock` on an
unknown lockId leaves the lock table and ledger untouched; but the
GenesisProtocol terminal transitions carry no status guard (a repeated
Fail on a terminal lock re-applies the balance restoration, as the
counterexample shows), and `createAtomicTransactionLock` never consults
the transactionID — a replay inserts a fresh PENDING lock under the newly
generated lockId while every existing lock stays in place. -/
theorem C5_amended_limited_idempotence :
    (∀ (s : CSIL.LedgerState) (transactionID : String),
      mapGet s.pendingTransactions transactionID = none →
      CSIL.rollbackTransaction s transactionID = s) ∧
    (∀ (s : GP.GPState) (lockId : String) (now : Nat),
      mapGet s.transactionLocks lockId = none →
      (GP.rollbackAtomicLock s lockId now).transactionLocks =
          s.transactionLocks ∧
      (GP.rollbackAtomicLock s lockId now).superIdLedger = s.superIdLedger) ∧
    (∀ (s : GP.GPState) (h : String) (amount : Int) (c txId lockId : String)
        (now : Nat),
      mapGet (GP.createAtomicTransactionLock s h amount c txId lockId
          now).1.transactionLocks lockId =
        some { superIdHash := h, amount := amount, currency := c,
               transactionId := txId, status := .PENDING, createdAt := now,
               expiresAt := now + GP.LOCK_TIMEOUT_MS, completedAt := none } ∧
      ∀ otherId, otherId ≠ lockId →
        mapGet (GP.createAtomicTransactionLock s h amount c txId lockId
            now).1.transactionLocks otherId =
          mapGet s.transactionLocks otherId) := by
  refine ⟨?_, ?_, ?_⟩
  · intro s transactionID hnone
    unfold CSIL.rollbackTransaction
    rw [hnone]
  · intro s lockId now hnone
    unfold GP.rollbackAtomicLock
    rw [hnone]
    exact ⟨rfl, rfl⟩
  · intro s h amount c txId lockId now
    constructor
    · exact mapGet_mapSet_self s.transactionLocks lockId _
    · intro otherId hne
      exact mapGet_mapSet_ne s.transactionLocks lockId otherId _ hne

/-- Witness for the amended C5: a rolled-back (hence absent) transaction
id is a no-op for `rollbackTransaction`; an unknown lockId leaves the
GenesisProtocol tables alone; and a replayed `createAtomicTransactionLock`
for the already-known transaction id `TM` adds a second PENDING lock while
the first survives. -/
theorem C5_amended_limited_idempotence_witness :
    CSIL.rollbackTransaction sampleLedger "TX9" = sampleLedger ∧
    ((GP.rollbackAtomicLock gpSample "L9" 3).transactionLocks =
        gpSample.transactionLocks ∧
     (GP.rollbackAtomicLock gpSample "L9" 3).superIdLedger =
        gpSample.superIdLedger) ∧
    (mapGet (GP.createAtomicTransactionLock gpLockToFail "M" 5 "USD" "TM" "LM2"
        7).1.transactionLocks "LM2" =
      some { superIdHash := "M", amount := 5, currency := "USD",
             transactionId := "TM", status := .PENDING, createdAt := 7,
             expiresAt := 7 + GP.LOCK_TIMEOUT_MS, completedAt := none } ∧
     mapGet (GP.createAtomicTransactionLock gpLockToFail "M" 5 "USD" "TM" "LM2"
        7).1.transactionLocks "LM" = mapGet gpLockToFail.transactionLocks "LM") := by
  refine ⟨?_, ?_, ?_, ?_⟩
  · exact C5_amended_limited_idempotence.1 sampleLedger "TX9" (by decide)
  · exact C5_amended_limited_idempotence.2.1 gpSample "L9" 3 (by decide)
  · exact (C5_amended_limited_idempotence.2.2 gpLockToFail "M" 5 "USD" "TM" "LM2" 7).1
  · exact (C5_amended_limited_idempotence.2.2 gpLockToFail "M" 5 "USD" "TM" "LM2"
      7).2 "LM" (by decide)

/-- Claim C3 counterexample: a federation rejection at the finalization
sync (third sync, after the `Credited` step) is a failing transfer —
`executeAtomicTransaction` reports the sync error — yet no compensation
happens, because `completeTransaction` deletes the pending record before
its sync: sender `A` ends at 60 instead of the pre-transaction 100 and
receiver `B` keeps the credit at 90. -/
theorem C3_counterexample :
    (CSIL.executeAtomicTransaction (fun x => x) sampleLedger "A" "B" 40
        sampleAuth "T1" 5 true true false).2 =
      .error "Federated server sync failed - transaction aborted" ∧
    (mapGet (CSIL.executeAtomicTransaction (fun x => x) sampleLedger "A" "B" 40
        sampleAuth "T1" 5 true true false).1.accounts "A").map
        (fun a => a.balance) = some 60 ∧
    (mapGet (CSIL.executeAtomicTransaction (fun x => x) sampleLedger "A" "B" 40
        sampleAuth "T1" 5 true true false).1.accounts "B").map
        (fun a => a.balance) = some 90 := by
  decide

/-- Claim C3 as amended: for every transfer that fails after the debit
and/or the optimistic credit but before the finalization phase begins
(federation/CRDT disagreement at the balance-lock sync or at the credit
sync), the compensation path restores the sender's balance, locked amount
and lock flag and reverses the receiver's credit if one was issued,
removing the transaction from the pending set (and `rollbackAtomicLock`
marks the lock FAILED); a federation failure at the finalization sync,
however, happens after all completion mutations and is not compensated,
as the counterexample shows. -/
theorem C3_rollback_restores_before_finalization :
    (∀ (hashFn : String → String) (s : CSIL.LedgerState) (fromID toID : String)
        (amount : Int) (auth : CSIL.BiometricData) (transactionID : String)
        (now : Nat) (sync1 sync2 sync3 : Bool) (sa ra : CSIL.Account),
      fromID ≠ toID →
      mapGet s.accounts fromID = some sa →
      mapGet s.accounts toID = some ra →
      mapGet s.pendingTransactions transactionID = none →
      CSIL.validateTransaction hashFn s fromID toID amount auth = .ok () →
      sync1 && sync2 = false →
      (CSIL.executeAtomicTransaction hashFn s fromID toID amount auth
          transactionID now sync1 sync2 sync3).2 =
        .error "Federated server sync failed - transaction aborted" ∧
      (mapGet (CSIL.executeAtomicTransaction hashFn s fromID toID amount auth
          transactionID now sync1 sync2 sync3).1.accounts fromID).map
          (fun a => a.balance) = some sa.balance ∧
      (mapGet (CSIL.executeAtomicTransaction hashFn s fromID toID amount auth
          transactionID now sync1 sync2 sync3).1.accounts fromID).map
          (fun a => a.lockedAmount) = some sa.lockedAmount ∧
      (mapGet (CSIL.executeAtomicTransaction hashFn s fromID toID amount auth
          transactionID now sync1 sync2 sync3).1.accounts fromID).map
          (fun a => a.isLocked) = some false ∧
      (mapGet (CSIL.executeAtomicTransaction hashFn s fromID toID amount auth
          transactionID now sync1 sync2 sync3).1.accounts toID).map
          (fun a => a.balance) = some ra.balance ∧
      (CSIL.executeAtomicTransaction hashFn s fromID toID amount auth
          transactionID now sync1 sync2 sync3).1.pendingTransactions =
        s.pendingTransactions) ∧
    (∀ (s : GP.GPState) (lockId : String) (now : Nat) (lock : GP.DbLock),
      mapGet s.transactionLocks lockId = some lock →
      mapGet (GP.rollbackAtomicLock s lockId now).transactionLocks lockId =
        some { lock with status := .FAILED, completedAt := some now }) := by
  constructor
  · intro hashFn s fromID toID amount auth transactionID now sync1 sync2 sync3
      sa ra hne hsa hra hfresh hval hsync
    have hne2 : toID ≠ fromID := fun h => hne h.symm
    cases sync1 with
    | false =>
      simp only [CSIL.executeAtomicTransaction, hval, CSIL.atomicBalanceLock,
        hsa, CSIL.rollbackTransaction, Bool.false_eq_true, if_false,
        mapGet_mapSet_self, mapSet_mapSet_self,
        mapDelete_mapSet_of_notMem _ _ _ hfresh]
      simp [mapGet_mapSet_self, mapGet_mapSet_ne _ _ _ _ hne2,
        mapDelete_mapSet_of_notMem _ _ _ hfresh, hra]
    | true =>
      cases sync2 with
      | true => simp at hsync
      | false =>
        simp only [CSIL.executeAtomicTransaction, hval, CSIL.atomicBalanceLock,
          hsa, CSIL.simultaneousCredit, CSIL.rollbackTransaction,
          mapGet_mapSet_self, mapSet_mapSet_self, if_true]
        simp [mapGet_mapSet_self, mapGet_mapSet_ne _ _ _ _ hne2,
          mapGet_mapSet_ne _ _ _ _ hne,
          mapDelete_mapSet_of_notMem _ _ _ hfresh, hra]
  · intro s lockId now lock hlock
    simp only [GP.rollbackAtomicLock, hlock]
    cases hle : mapGet s.superIdLedger (lock.superIdHash, lock.currency) with
    | none => simp [hle, mapGet_mapSet_self]
    | some entry => simp [hle, mapGet_mapSet_self]

/-- Witness for the amended C3: a federation rejection at the credit sync
of a 40-unit transfer from `A` (balance 100) to `B` (balance 50) reports
the sync error and leaves both balances, the locked amount, the lock flag
and the pending set exactly as before; and `rollbackAtomicLock` on the
concrete PENDING lock `LM` marks it FAILED. -/
theorem C3_rollback_restores_before_finalization_witness :
    ((CSIL.executeAtomicTransaction (fun x => x) sampleLedger "A" "B" 40
        sampleAuth "T2" 5 true false true).2 =
      .error "Federated server sync failed - transaction aborted" ∧
    (mapGet (CSIL.executeAtomicTransaction (fun x => x) sampleLedger "A" "B" 40
        sampleAuth "T2" 5 true false true).1.accounts "A").map
        (fun a => a.balance) = some 100 ∧
    (mapGet (CSIL.executeAtomicTransaction (fun x => x) sampleLedger "A" "B" 40
        sampleAuth "T2" 5 true false true).1.accounts "A").map
        (fun a => a.lockedAmount) = some 0 ∧
    (mapGet (CSIL.executeAtomicTransaction (fun x => x) sampleLedger "A" "B" 40
        sampleAuth "T2" 5 true false true).1.accounts "A").map
        (fun a => a.isLocked) = some false ∧
    (mapGet (CSIL.executeAtomicTransaction (fun x => x) sampleLedger "A" "B" 40
        sampleAuth "T2" 5 true false true).1.accounts "B").map
        (fun a => a.balance) = some 50 ∧
    (CSIL.executeAtomicTransaction (fun x => x) sampleLedger "A" "B" 40
        sampleAuth "T2" 5 true false true).1.pendingTransactions =
      sampleLedger.pendingTransactions) ∧
    mapGet (GP.rollbackAtomicLock gpLockToFail "LM" 11).transactionLocks "LM" =
      some { superIdHash := "M", amount := 5, currency := "USD",
             transactionId := "TM", status := .FAILED, createdAt := 0,
             expiresAt := 500, completedAt := some 11 } := by
  constructor
  · exact C3_rollback_restores_before_finalization.1 (fun x => x) sampleLedger
      "A" "B" 40 sampleAuth "T2" 5 true false true sampleAccountA sampleAccountB
      (by decide) (by decide) (by decide) (by decide) (by decide) (by decide)
  · exact C3_rollback_restores_before_finalization.2 gpLockToFail "LM" 11
      { superIdHash := "M", amount := 5, currency := "USD",
        transactionId := "TM", status := .PENDING, createdAt := 0,
        expiresAt := 500, completedAt := none } (by decide)

/-- Replacing the entry of key `k` (old value `v`) shifts the
balance sum by the balance difference. -/
theorem balanceSum_mapSet {m : List (String × CSIL.Account)} {k : String}
    {v : CSIL.Account} {w : CSIL.Account} (h : mapGet m k = some v) :
    CSIL.balanceSum (mapSet m k w) =
      CSIL.balanceSum m + (w.balance - v.balance) := by
  induction m with
  | nil => simp [mapGet] at h
  | cons hd t ih =>
    by_cases hk : k = hd.1
    · simp only [mapGet, if_pos hk] at h
      obtain rfl : hd.2 = v := by
        simpa using h
      simp [CSIL.balanceSum, mapSet, hk]
      ring
    · simp only [mapGet, if_neg hk] at h
      simp only [CSIL.balanceSum, mapSet, if_neg hk, List.map_cons,
        List.sum_cons] at ih ⊢
      rw [ih h]
      ring

/-- Balance-sum effect of the three account writes a successful transfer
performs (lock the sender, credit the receiver, settle the sender). -/
theorem balanceSum_three_updates {m : List (String × CSIL.Account)}
    {a b : String} {va vb : CSIL.Account} {w1 w2 w3 : CSIL.Account}
    (hab : a ≠ b) (ha : mapGet m a = some va) (hb : mapGet m b = some vb) :
    CSIL.balanceSum (mapSet (mapSet (mapSet m a w1) b w2) a w3) =
      CSIL.balanceSum m + (w2.balance - vb.balance) + (w3.balance - va.balance) := by
  have hba : b ≠ a := fun h => hab h.symm
  have h1 : mapGet (mapSet m a w1) b = some vb := by
    rw [mapGet_mapSet_ne _ _ _ _ hba]
    exact hb
  have h2 : mapGet (mapSet (mapSet m a w1) b w2) a = some w1 := by
    rw [mapGet_mapSet_ne _ _ _ _ hab, mapGet_mapSet_self]
  rw [balanceSum_mapSet h2, balanceSum_mapSet h1, balanceSum_mapSet ha]
  ring

/-- Claim C9: a transfer between two distinct registered accounts that
runs `executeAtomicTransaction` to successful completion decreases the
sender's balance by exactly the amount, increases the recipient's by the
same amount, returns the sender's lockedAmount and isLocked flag to their
pre-transaction values (the flag was false, as validation demands), and
leaves the sum of all account balances in the ledger unchanged. -/
theorem C9_money_conservation :
    ∀ (hashFn : String → String) (s : CSIL.LedgerState) (fromID toID : String)
      (amount : Int) (auth : CSIL.BiometricData) (transactionID : String)
      (now : Nat) (sa ra : CSIL.Account) (hf ht : List CSIL.TxRecord),
      fromID ≠ toID →
      mapGet s.accounts fromID = some sa →
      mapGet s.accounts toID = some ra →
      mapGet s.transactionHistory fromID = some hf →
      mapGet s.transactionHistory toID = some ht →
      CSIL.validateTransaction hashFn s fromID toID amount auth = .ok () →
      (CSIL.executeAtomicTransaction hashFn s fromID toID amount auth
          transactionID now true true true).2 = .ok transactionID ∧
      sa.isLocked = false ∧
      (mapGet (CSIL.executeAtomicTransaction hashFn s fromID toID amount auth
          transactionID now true true true).1.accounts fromID).map
          (fun a => a.balance) = some (sa.balance - amount) ∧
      (mapGet (CSIL.executeAtomicTransaction hashFn s fromID toID amount auth
          transactionID now true true true).1.accounts fromID).map
          (fun a => a.lockedAmount) = some sa.lockedAmount ∧
      (mapGet (CSIL.executeAtomicTransaction hashFn s fromID toID amount auth
          transactionID now true true true).1.accounts fromID).map
          (fun a => a.isLocked) = some false ∧
      (mapGet (CSIL.executeAtomicTransaction hashFn s fromID toID amount auth
          transactionID now true true true).1.accounts toID).map
          (fun a => a.balance) = some (ra.balance + amount) ∧
      CSIL.balanceSum (CSIL.executeAtomicTransaction hashFn s fromID toID amount
          auth transactionID now true true true).1.accounts =
        CSIL.balanceSum s.accounts := by
  intro hashFn s fromID toID amount auth transactionID now sa ra hf ht
    hne hsa hra hhf hht hval
  have hne2 : toID ≠ fromID := fun h => hne h.symm
  have hlock : sa.isLocked = false := by
    by_cases h : sa.isLocked
    · simp [CSIL.validateTransaction, hsa, h] at hval
    · simpa using h
  refine ⟨?_, hlock, ?_, ?_, ?_, ?_, ?_⟩ <;>
    simp only [CSIL.executeAtomicTransaction, hval, CSIL.atomicBalanceLock, hsa,
      CSIL.simultaneousCredit, CSIL.completeTransaction,
      mapGet_mapSet_self, mapSet_mapSet_self, if_true,
      mapGet_mapSet_ne _ _ _ _ hne2, mapGet_mapSet_ne _ _ _ _ hne, hra, hhf, hht]
  · simp
  · simp
  · simp
  · simp
  · rw [balanceSum_three_updates hne hsa hra]
    simp

/-- Witness for C9: the 40-unit transfer from `A` (100) to `B` (50) with
all three federation syncs agreeing completes with `A` at 60, `B` at 90,
the lock released and the ledger-wide balance sum preserved. -/
theorem C9_money_conservation_witness :
    (CSIL.executeAtomicTransaction (fun x => x) sampleLedger "A" "B" 40
        sampleAuth "T3" 5 true true true).2 = .ok "T3" ∧
    sampleAccountA.isLocked = false ∧
    (mapGet (CSIL.executeAtomicTransaction (fun x => x) sampleLedger "A" "B" 40
        sampleAuth "T3" 5 true true true).1.accounts "A").map
        (fun a => a.balance) = some 60 ∧
    (mapGet (CSIL.executeAtomicTransaction (fun x => x) sampleLedger "A" "B" 40
        sampleAuth "T3" 5 true true true).1.accounts "A").map
        (fun a => a.lockedAmount) = some 0 ∧
    (mapGet (CSIL.executeAtomicTransaction (fun x => x) sampleLedger "A" "B" 40
        sampleAuth "T3" 5 true true true).1.accounts "A").map
        (fun a => a.isLocked) = some false ∧
    (mapGet (CSIL.executeAtomicTransaction (fun x => x) sampleLedger "A" "B" 40
        sampleAuth "T3" 5 true true true).1.accounts "B").map
        (fun a => a.balance) = some 90 ∧
    CSIL.balanceSum (CSIL.executeAtomicTransaction (fun x => x) sampleLedger "A"
        "B" 40 sampleAuth "T3" 5 true true true).1.accounts =
      CSIL.balanceSum sampleLedger.accounts :=
  C9_money_conservation (fun x => x) sampleLedger "A" "B" 40 sampleAuth "T3" 5
    sampleAccountA sampleAccountB [] [] (by decide) (by decide) (by decide)
    (by decide) (by decide) (by decide)
